import Mathlib

/-!
Verification of the real-time audio streaming subsystem of the repository
(src/components/Conversation.tsx, src/components/ImageEditor.tsx
AudioTranscriber, src/components/TTS.tsx createWavUrl,
src/services/geminiService.ts).

The embedding models JavaScript numbers with exact rationals: every value
flowing through the audio paths (Float32 samples, division by 32768.0,
AudioContext times) is a dyadic rational on which double and Float32
arithmetic are exact, so ℚ is a faithful carrier.  Machine 16-bit
conversion (assignment into an Int16Array) is modelled explicitly with
truncation toward zero followed by wrapping modulo 2^16 into the signed
range, exactly as ECMAScript ToInt16 prescribes.
-/

namespace Spec2Proof

/-- ECMAScript ToIntegerOrInfinity on a finite value: truncation toward
zero (floor for nonnegative, ceiling for negative). -/
def truncQ (x : ℚ) : ℤ :=
  if 0 ≤ x then ⌊x⌋ else ⌈x⌉

/-- ECMAScript ToInt16: wrap an integer modulo 2^16 into [-32768, 32767].
This is what storing into an `Int16Array` slot does to an already
truncated value. -/
def toInt16 (n : ℤ) : ℤ :=
  if n % 65536 < 32768 then n % 65536 else n % 65536 - 65536

/-- One sample of `createBlob` (Conversation.tsx line 33):
`int16[i] = data[i] * 32768`, i.e. scale by 32768 and store into an
`Int16Array` (truncate toward zero, wrap mod 2^16). -/
def createBlobSample (s : ℚ) : ℤ :=
  toInt16 (truncQ (s * 32768))

/-- The function `createBlob` applied samplewise to a whole captured block
(Conversation.tsx lines 28-39, ignoring the byte packing and base64
framing, which are bijective transport encodings). -/
def createBlob (data : List ℚ) : List ℤ :=
  data.map createBlobSample

/-- The mime tag attached by `createBlob` (Conversation.tsx line 37). -/
def createBlobMimeType : String := "audio/pcm;rate=16000"

/-- One sample of `decodeAudioData` (Conversation.tsx line 55):
`channelData[i] = dataInt16[i * numChannels + channel] / 32768.0`. -/
def decodeAudioDataSample (q : ℤ) : ℚ :=
  (q : ℚ) / 32768

/-- The function `decodeAudioData` for the mono case used by the playback path
(numChannels = 1): divide every 16-bit integer by 32768.0. -/
def decodeAudioDataMono (data : List ℤ) : List ℚ :=
  data.map decodeAudioDataSample

/-- Round trip of one sample through the wire representation. -/
def roundTripSample (s : ℚ) : ℚ :=
  decodeAudioDataSample (createBlobSample s)

theorem truncQ_nonneg_eq (x : ℚ) (h : 0 ≤ x) : truncQ x = ⌊x⌋ := by
  simp [truncQ, h]

theorem truncQ_neg_eq (x : ℚ) (h : ¬ 0 ≤ x) : truncQ x = ⌈x⌉ := by
  simp [truncQ, h]

/-- Truncation toward zero moves a value by less than 1. -/
theorem abs_sub_truncQ_lt_one (x : ℚ) : |x - (truncQ x : ℚ)| < 1 := by
  by_cases h : 0 ≤ x
  · rw [truncQ_nonneg_eq x h, abs_sub_lt_iff]
    constructor
    · linarith [Int.lt_floor_add_one x]
    · linarith [Int.floor_le x]
  · rw [truncQ_neg_eq x h, abs_sub_lt_iff]
    constructor
    · linarith [Int.le_ceil x]
    · linarith [Int.ceil_lt_add_one x]

/-- In range, ToInt16 is the identity. -/
theorem toInt16_eq_self (n : ℤ) (h1 : -32768 ≤ n) (h2 : n ≤ 32767) :
    toInt16 n = n := by
  unfold toInt16
  omega

theorem truncQ_lower (x : ℚ) (h : -32768 ≤ x) : -32768 ≤ truncQ x := by
  by_cases h0 : 0 ≤ x
  · rw [truncQ_nonneg_eq x h0]
    have : (-32768 : ℤ) ≤ ⌊x⌋ := by
      rw [Int.le_floor]
      exact_mod_cast h
    exact this
  · rw [truncQ_neg_eq x h0]
    have hx : (-32768 : ℚ) ≤ (⌈x⌉ : ℚ) := le_trans h (Int.le_ceil x)
    exact_mod_cast hx

theorem truncQ_upper (x : ℚ) (h : x < 32768) : truncQ x ≤ 32767 := by
  by_cases h0 : 0 ≤ x
  · rw [truncQ_nonneg_eq x h0]
    have : ⌊x⌋ < (32768 : ℤ) := by
      rw [Int.floor_lt]
      exact_mod_cast h
    omega
  · rw [truncQ_neg_eq x h0]
    have : ⌈x⌉ ≤ 0 := Int.ceil_le.mpr (by push_cast; linarith [le_of_not_le h0])
    omega

/-- For samples in [-1, 1) no wrapping occurs and the quantisation error
is below one least significant bit. -/
theorem roundTripSample_close (s : ℚ) (h1 : -1 ≤ s) (h2 : s < 1) :
    |s - roundTripSample s| ≤ 1 / 32768 := by
  have hl : (-32768 : ℚ) ≤ s * 32768 := by linarith
  have hu : s * 32768 < 32768 := by linarith
  have hid : createBlobSample s = truncQ (s * 32768) := by
    unfold createBlobSample
    exact toInt16_eq_self _ (truncQ_lower _ hl) (truncQ_upper _ hu)
  have hq := abs_sub_truncQ_lt_one (s * 32768)
  have hrt : roundTripSample s = (truncQ (s * 32768) : ℚ) / 32768 := by
    unfold roundTripSample decodeAudioDataSample
    rw [hid]
  rw [hrt]
  have hdiff : s - (truncQ (s * 32768) : ℚ) / 32768 =
      (s * 32768 - (truncQ (s * 32768) : ℚ)) / 32768 := by
    field_simp
  rw [hdiff, abs_div]
  have h32 : |(32768 : ℚ)| = 32768 := by norm_num
  rw [h32]
  rw [div_le_div_iff₀ (by norm_num : (0:ℚ) < 32768) (by norm_num : (0:ℚ) < 32768)]
  nlinarith [le_of_lt hq]

/-- C1 (counterexample): the sample 1.0 lies in [-1, 1], yet
`int16[i] = 1.0 * 32768` wraps to -32768, which decodes to -1.0: the
reconstruction error is 2, far above the claimed 1/32768 tolerance. -/
theorem c1_roundtrip_fails_at_one :
    createBlobSample 1 = -32768 ∧ roundTripSample 1 = -1 ∧
      ¬ |(1 : ℚ) - roundTripSample 1| ≤ 1 / 32768 := by
  have h1 : createBlobSample 1 = -32768 := by
    norm_num [createBlobSample, truncQ, toInt16]
  have h2 : roundTripSample 1 = -1 := by
    rw [roundTripSample, h1]
    norm_num [decodeAudioDataSample]
  refine ⟨h1, h2, ?_⟩
  rw [h2]
  norm_num

/-- C1 (amended): for every block of samples each in [-1, 1), encoding with
`createBlob` and decoding with `decodeAudioData` reconstructs every sample
within 1/32768 absolute error; the endpoint 1.0 is excluded because it
wraps to -1.0 (see the counterexample). -/
theorem c1_roundtrip_codec_law (xs : List ℚ)
    (h : ∀ s ∈ xs, -1 ≤ s ∧ s < 1) :
    List.Forall₂ (fun s r => |s - r| ≤ 1 / 32768) xs
      (decodeAudioDataMono (createBlob xs)) := by
  induction xs with
  | nil => simp [decodeAudioDataMono, createBlob]
  | cons a as ih =>
      have ha := h a (List.mem_cons_self a as)
      have has : ∀ s ∈ as, -1 ≤ s ∧ s < 1 := fun s hs => h s (List.mem_cons_of_mem a hs)
      simp only [decodeAudioDataMono, createBlob, List.map_cons]
      exact List.Forall₂.cons (roundTripSample_close a ha.1 ha.2) (ih has)

/-- C1 witness: the amended law at a concrete block. -/
theorem c1_roundtrip_codec_law_witness :
    List.Forall₂ (fun s r => |s - r| ≤ 1 / 32768)
      [(1 : ℚ) / 2, -1 / 2, 0, 255 / 256]
      (decodeAudioDataMono (createBlob [(1 : ℚ) / 2, -1 / 2, 0, 255 / 256])) :=
  c1_roundtrip_codec_law [(1 : ℚ) / 2, -1 / 2, 0, 255 / 256] (by
    intro s hs
    fin_cases hs <;> constructor <;> norm_num)

/-! ## The Conversation live-session message handler

`onmessage` in Conversation.tsx (lines 180-234) processes one server
message: it overwrites the per-role latest-transcript buffers, schedules a
decoded audio chunk on the playback timeline, handles the interruption
flag, and commits the turn on `turnComplete` — in exactly that order.  The
externally visible audio actions (`source.start(t)`,
`source.stop()`) are modelled as an emitted effect list. -/

/-- Role of a conversation entry (the string literals in the source). -/
inductive Role where
  | user
  | model
deriving DecidableEq, Repr

/-- The type `ConversationEntry` from Conversation.tsx lines 68-71. -/
structure ConversationEntry where
  role : Role
  text : String
deriving DecidableEq, Repr

/-- The type `Status` from Conversation.tsx line 73. -/
inductive Status where
  | idle
  | connecting
  | listening
  | thinking
deriving DecidableEq, Repr

/-- The fields of a `LiveServerMessage.serverContent` that the handler
reads.  An audio chunk is carried as its decoded 16-bit samples (mono,
24 kHz), which is what `decode` + `decodeAudioData` produce from the
base64 payload. -/
structure LiveMsg where
  inputTranscription : Option String
  outputTranscription : Option String
  audioData : Option (List ℤ)
  interrupted : Bool
  turnComplete : Bool

/-- The component state touched by the session callbacks: React state
(status, conversation, error), the mutable refs (latest-transcript
buffers, playback watermark, scheduled-source set), and the resource
handles held in refs (used by cleanup/onclose).  Scheduled sources are
identified by consecutive ids (`nextSourceId` is the allocator). -/
structure ConvState where
  status : Status
  conversation : List ConversationEntry
  error : Option String
  currentInputText : String
  currentOutputText : String
  nextStartTime : ℚ
  audioSources : List ℕ
  nextSourceId : ℕ
  mediaStream : Bool
  scriptProcessor : Bool
  inputCtx : Bool
  outputCtx : Bool
  session : Bool
deriving DecidableEq, Repr

/-- An observable playback action issued by the handler. -/
inductive AudioEffect where
  | start (id : ℕ) (time : ℚ)
  | stop (id : ℕ)
deriving DecidableEq, Repr

/-- The value `AudioBuffer.duration` of a decoded chunk: frame count (mono) divided
by the 24000 Hz playback rate (decodeAudioData, Conversation.tsx
lines 48-50). -/
def bufferDuration (chunk : List ℤ) : ℚ :=
  (chunk.length : ℚ) / 24000

/-- Lines 183-185: `currentInputTextRef.current = serverContent.inputTranscription.text`
(overwrite, not append). -/
def applyInputT (msg : LiveMsg) (st : ConvState) : ConvState :=
  match msg.inputTranscription with
  | some t => { st with currentInputText := t }
  | none => st

/-- Lines 186-189: overwrite the output buffer and show the thinking
indicator. -/
def applyOutputT (msg : LiveMsg) (st : ConvState) : ConvState :=
  match msg.outputTranscription with
  | some t => { st with currentOutputText := t, status := Status.thinking }
  | none => st

/-- Lines 193-213: decode the chunk, compute
`startTime = max(currentTime, nextStartTime)`, start the source there,
advance the watermark by the chunk duration and add the source to the
active set.  `now` is `outputAudioContext.currentTime`. -/
def applyAudio (now : ℚ) (msg : LiveMsg) (st : ConvState) :
    ConvState × List AudioEffect :=
  match msg.audioData with
  | some chunk =>
      let startTime := max now st.nextStartTime
      ({ st with
          nextStartTime := startTime + bufferDuration chunk,
          audioSources := st.audioSources ++ [st.nextSourceId],
          nextSourceId := st.nextSourceId + 1 },
       [AudioEffect.start st.nextSourceId startTime])
  | none => (st, [])

/-- Lines 215-221: on `interrupted`, stop every source in the active set,
clear the set and reset the watermark to 0. -/
def applyInterrupt (msg : LiveMsg) (st : ConvState) :
    ConvState × List AudioEffect :=
  if msg.interrupted then
    ({ st with audioSources := [], nextStartTime := 0 },
     st.audioSources.map AudioEffect.stop)
  else (st, [])

/-- JavaScript `String.prototype.trim`: drop leading and trailing
whitespace.  (An executable equivalent of `String.trim`, defined by
structural recursion so concrete instances evaluate.) -/
def trimStr (s : String) : String :=
  ⟨((s.data.dropWhile Char.isWhitespace).reverse.dropWhile
      Char.isWhitespace).reverse⟩

/-- Lines 222-233: on `turnComplete`, trim both buffers, append the
user/model pair when at least one is non-empty (the JS truthiness test
`userTurn.text || modelTurn.text`), reset both buffers, return to
listening. -/
def applyTurnComplete (msg : LiveMsg) (st : ConvState) : ConvState :=
  if msg.turnComplete then
    let userTurn : ConversationEntry := ⟨Role.user, trimStr st.currentInputText⟩
    let modelTurn : ConversationEntry := ⟨Role.model, trimStr st.currentOutputText⟩
    { st with
        conversation :=
          if userTurn.text ≠ "" ∨ modelTurn.text ≠ "" then
            st.conversation ++ [userTurn, modelTurn]
          else st.conversation,
        currentInputText := "",
        currentOutputText := "",
        status := Status.listening }
  else st

/-- The whole `onmessage` handler, steps in source order: transcription
overwrites, then audio scheduling, then the interruption path, then the
turn commit; the emitted effects are the scheduling and stop actions in
issue order. -/
def onmessage (now : ℚ) (msg : LiveMsg) (st : ConvState) :
    ConvState × List AudioEffect :=
  (applyTurnComplete msg
      (applyInterrupt msg
        (applyAudio now msg (applyOutputT msg (applyInputT msg st))).1).1,
    (applyAudio now msg (applyOutputT msg (applyInputT msg st))).2 ++
      (applyInterrupt msg
        (applyAudio now msg (applyOutputT msg (applyInputT msg st))).1).2)

/-- The callback `source.onended` (line 205): natural completion removes the source
from the active set. -/
def onSourceEnded (id : ℕ) (st : ConvState) : ConvState :=
  { st with audioSources := st.audioSources.erase id }

/-- Component state as initialised by the useState/useRef declarations
(Conversation.tsx lines 101-115). -/
def initConvState : ConvState :=
  { status := Status.idle
    conversation := []
    error := none
    currentInputText := ""
    currentOutputText := ""
    nextStartTime := 0
    audioSources := []
    nextSourceId := 0
    mediaStream := false
    scriptProcessor := false
    inputCtx := false
    outputCtx := false
    session := false }

theorem applyInputT_nextStartTime (msg : LiveMsg) (st : ConvState) :
    (applyInputT msg st).nextStartTime = st.nextStartTime := by
  unfold applyInputT
  cases msg.inputTranscription <;> rfl

theorem applyOutputT_nextStartTime (msg : LiveMsg) (st : ConvState) :
    (applyOutputT msg st).nextStartTime = st.nextStartTime := by
  unfold applyOutputT
  cases msg.outputTranscription <;> rfl

theorem applyInputT_audioSources (msg : LiveMsg) (st : ConvState) :
    (applyInputT msg st).audioSources = st.audioSources := by
  unfold applyInputT
  cases msg.inputTranscription <;> rfl

theorem applyOutputT_audioSources (msg : LiveMsg) (st : ConvState) :
    (applyOutputT msg st).audioSources = st.audioSources := by
  unfold applyOutputT
  cases msg.outputTranscription <;> rfl

theorem applyInputT_conversation (msg : LiveMsg) (st : ConvState) :
    (applyInputT msg st).conversation = st.conversation := by
  unfold applyInputT
  cases msg.inputTranscription <;> rfl

theorem applyOutputT_conversation (msg : LiveMsg) (st : ConvState) :
    (applyOutputT msg st).conversation = st.conversation := by
  unfold applyOutputT
  cases msg.outputTranscription <;> rfl

theorem applyTurnComplete_nextStartTime (msg : LiveMsg) (st : ConvState) :
    (applyTurnComplete msg st).nextStartTime = st.nextStartTime := by
  unfold applyTurnComplete
  by_cases h : msg.turnComplete <;> simp [h]

theorem applyTurnComplete_audioSources (msg : LiveMsg) (st : ConvState) :
    (applyTurnComplete msg st).audioSources = st.audioSources := by
  unfold applyTurnComplete
  by_cases h : msg.turnComplete <;> simp [h]

theorem applyAudio_some (now : ℚ) (msg : LiveMsg) (st : ConvState)
    (chunk : List ℤ) (h : msg.audioData = some chunk) :
    applyAudio now msg st =
      ({ st with
          nextStartTime := max now st.nextStartTime + bufferDuration chunk,
          audioSources := st.audioSources ++ [st.nextSourceId],
          nextSourceId := st.nextSourceId + 1 },
       [AudioEffect.start st.nextSourceId (max now st.nextStartTime)]) := by
  unfold applyAudio
  rw [h]

theorem applyInterrupt_false (msg : LiveMsg) (st : ConvState)
    (h : msg.interrupted = false) : applyInterrupt msg st = (st, []) := by
  unfold applyInterrupt
  rw [h]
  simp

theorem applyInterrupt_true (msg : LiveMsg) (st : ConvState)
    (h : msg.interrupted = true) :
    applyInterrupt msg st =
      ({ st with audioSources := [], nextStartTime := 0 },
       st.audioSources.map AudioEffect.stop) := by
  unfold applyInterrupt
  rw [h]
  simp

theorem applyAudio_none (now : ℚ) (msg : LiveMsg) (st : ConvState)
    (h : msg.audioData = none) : applyAudio now msg st = (st, []) := by
  unfold applyAudio
  rw [h]

theorem applyAudio_conversation (now : ℚ) (msg : LiveMsg) (st : ConvState) :
    (applyAudio now msg st).1.conversation = st.conversation := by
  unfold applyAudio
  cases msg.audioData <;> rfl

theorem applyAudio_currentInputText (now : ℚ) (msg : LiveMsg) (st : ConvState) :
    (applyAudio now msg st).1.currentInputText = st.currentInputText := by
  unfold applyAudio
  cases msg.audioData <;> rfl

theorem applyAudio_currentOutputText (now : ℚ) (msg : LiveMsg) (st : ConvState) :
    (applyAudio now msg st).1.currentOutputText = st.currentOutputText := by
  unfold applyAudio
  cases msg.audioData <;> rfl

theorem applyInterrupt_conversation (msg : LiveMsg) (st : ConvState) :
    (applyInterrupt msg st).1.conversation = st.conversation := by
  unfold applyInterrupt
  by_cases h : msg.interrupted <;> simp [h]

theorem applyInterrupt_currentInputText (msg : LiveMsg) (st : ConvState) :
    (applyInterrupt msg st).1.currentInputText = st.currentInputText := by
  unfold applyInterrupt
  by_cases h : msg.interrupted <;> simp [h]

theorem applyInterrupt_currentOutputText (msg : LiveMsg) (st : ConvState) :
    (applyInterrupt msg st).1.currentOutputText = st.currentOutputText := by
  unfold applyInterrupt
  by_cases h : msg.interrupted <;> simp [h]

/-- Characterisation of a message carrying an audio chunk and no
interruption: the handler emits exactly one start action at
`max now nextStartTime` and advances the watermark by the chunk
duration. -/
theorem onmessage_audio_start (now : ℚ) (msg : LiveMsg) (st : ConvState)
    (chunk : List ℤ) (ha : msg.audioData = some chunk)
    (hi : msg.interrupted = false) :
    (onmessage now msg st).2 =
      [AudioEffect.start ((applyOutputT msg (applyInputT msg st)).nextSourceId)
        (max now st.nextStartTime)] ∧
    (onmessage now msg st).1.nextStartTime =
      max now st.nextStartTime + bufferDuration chunk := by
  have hst1 : (applyOutputT msg (applyInputT msg st)).nextStartTime =
      st.nextStartTime := by
    rw [applyOutputT_nextStartTime, applyInputT_nextStartTime]
  unfold onmessage
  rw [applyAudio_some now msg (applyOutputT msg (applyInputT msg st)) chunk ha]
  rw [applyInterrupt_false msg _ hi]
  refine ⟨by simp [hst1], ?_⟩
  simp only [applyTurnComplete_nextStartTime]
  simp [hst1]

/-- C2: playback ordering invariant.  For three consecutive messages each
carrying a decoded chunk and no interruption, processed at arbitrary
playback-clock times, the scheduled start times respect
start₂ ≥ start₁ + duration₁ and start₃ ≥ start₂ + duration₂. -/
theorem c2_playback_ordering (st0 : ConvState) (now1 now2 now3 : ℚ)
    (m1 m2 m3 : LiveMsg) (c1 c2 c3 : List ℤ) (t1 t2 t3 : ℚ) (i1 i2 i3 : ℕ)
    (ha1 : m1.audioData = some c1) (ha2 : m2.audioData = some c2)
    (ha3 : m3.audioData = some c3)
    (hi1 : m1.interrupted = false) (hi2 : m2.interrupted = false)
    (hi3 : m3.interrupted = false)
    (e1 : AudioEffect.start i1 t1 ∈ (onmessage now1 m1 st0).2)
    (e2 : AudioEffect.start i2 t2 ∈
      (onmessage now2 m2 (onmessage now1 m1 st0).1).2)
    (e3 : AudioEffect.start i3 t3 ∈
      (onmessage now3 m3 (onmessage now2 m2 (onmessage now1 m1 st0).1).1).2) :
    t1 + bufferDuration c1 ≤ t2 ∧ t2 + bufferDuration c2 ≤ t3 := by
  obtain ⟨heff1, hnst1⟩ := onmessage_audio_start now1 m1 st0 c1 ha1 hi1
  obtain ⟨heff2, hnst2⟩ :=
    onmessage_audio_start now2 m2 (onmessage now1 m1 st0).1 c2 ha2 hi2
  obtain ⟨heff3, _⟩ :=
    onmessage_audio_start now3 m3
      (onmessage now2 m2 (onmessage now1 m1 st0).1).1 c3 ha3 hi3
  rw [heff1, List.mem_singleton] at e1
  rw [heff2, List.mem_singleton] at e2
  rw [heff3, List.mem_singleton] at e3
  have ht1 : t1 = max now1 st0.nextStartTime := by
    injection e1 with _ h
  have ht2 : t2 = max now2 (onmessage now1 m1 st0).1.nextStartTime := by
    injection e2 with _ h
  have ht3 : t3 =
      max now3 (onmessage now2 m2 (onmessage now1 m1 st0).1).1.nextStartTime := by
    injection e3 with _ h
  constructor
  · rw [ht2, hnst1, ← ht1]
    exact le_max_right _ _
  · rw [ht3, hnst2, ← ht2]
    exact le_max_right _ _

/-- C2 witness: three one-sample chunks processed at clock time 0 from
the initial state start at 0, 1/24000 and 1/12000, back to back. -/
theorem c2_playback_ordering_witness :
    (0 : ℚ) + bufferDuration [(0 : ℤ)] ≤ 1 / 24000 ∧
      (1 / 24000 : ℚ) + bufferDuration [(0 : ℤ)] ≤ 1 / 12000 :=
  c2_playback_ordering initConvState 0 0 0
    (LiveMsg.mk none none (some [0]) false false)
    (LiveMsg.mk none none (some [0]) false false)
    (LiveMsg.mk none none (some [0]) false false)
    [0] [0] [0] 0 (1 / 24000) (1 / 12000) 0 1 2
    rfl rfl rfl rfl rfl rfl
    (by
      simp [onmessage, applyInputT, applyOutputT, applyAudio, applyInterrupt,
        applyTurnComplete, bufferDuration, initConvState])
    (by
      simp [onmessage, applyInputT, applyOutputT, applyAudio, applyInterrupt,
        applyTurnComplete, bufferDuration, initConvState])
    (by
      simp [onmessage, applyInputT, applyOutputT, applyAudio, applyInterrupt,
        applyTurnComplete, bufferDuration, initConvState]
      norm_num)

/-- Characterisation of a message with the `interrupted` flag and no
audio chunk: every active source is issued a stop action, the active set
is cleared and the watermark is reset to 0. -/
theorem onmessage_interrupted (now : ℚ) (msg : LiveMsg) (st : ConvState)
    (hint : msg.interrupted = true) (hna : msg.audioData = none) :
    (onmessage now msg st).1.nextStartTime = 0 ∧
    (onmessage now msg st).1.audioSources = [] ∧
    (onmessage now msg st).2 = st.audioSources.map AudioEffect.stop := by
  unfold onmessage
  rw [applyAudio_none now msg _ hna, applyInterrupt_true msg _ hint]
  refine ⟨?_, ?_, ?_⟩
  · simp only [applyTurnComplete_nextStartTime]
  · simp only [applyTurnComplete_audioSources]
  · simp [applyOutputT_audioSources, applyInputT_audioSources]

/-- C3: interruption resets the timeline.  A message carrying the
interruption flag stops every source in the active set, clears the set
and resets `nextStartTime` to 0; consequently the next chunk received
afterwards (at any nonnegative playback-clock time `now2`) is scheduled
to start exactly at `now2`, not at the stale watermark. -/
theorem c3_interruption_resets (st : ConvState) (now now2 : ℚ)
    (m m2 : LiveMsg) (c : List ℤ) (t : ℚ) (j i : ℕ)
    (hint : m.interrupted = true) (hna : m.audioData = none)
    (him : i ∈ st.audioSources)
    (ha2 : m2.audioData = some c) (hi2 : m2.interrupted = false)
    (hnow2 : 0 ≤ now2)
    (hmem : AudioEffect.start j t ∈
      (onmessage now2 m2 (onmessage now m st).1).2) :
    (onmessage now m st).1.nextStartTime = 0 ∧
    (onmessage now m st).1.audioSources = [] ∧
    AudioEffect.stop i ∈ (onmessage now m st).2 ∧
    t = now2 := by
  obtain ⟨hnst, hsrc, heff⟩ := onmessage_interrupted now m st hint hna
  refine ⟨hnst, hsrc, ?_, ?_⟩
  · rw [heff]
    exact List.mem_map_of_mem AudioEffect.stop him
  · obtain ⟨heff2, _⟩ :=
      onmessage_audio_start now2 m2 (onmessage now m st).1 c ha2 hi2
    rw [heff2, hnst, List.mem_singleton] at hmem
    have ht : t = max now2 0 := by
      injection hmem with _ h
    rw [ht]
    exact max_eq_left hnow2

/-- C3 witness: interrupting a state with active sources 4 and 7 and
watermark 5 stops source 7, clears the set, resets the watermark, and a
chunk arriving next at clock time 3 starts at 3. -/
theorem c3_interruption_resets_witness :
    (onmessage 100 (LiveMsg.mk none none none true false)
        { initConvState with
            audioSources := [4, 7], nextSourceId := 9,
            nextStartTime := 5 }).1.nextStartTime = 0 ∧
    (onmessage 100 (LiveMsg.mk none none none true false)
        { initConvState with
            audioSources := [4, 7], nextSourceId := 9,
            nextStartTime := 5 }).1.audioSources = [] ∧
    AudioEffect.stop 7 ∈
      (onmessage 100 (LiveMsg.mk none none none true false)
        { initConvState with
            audioSources := [4, 7], nextSourceId := 9,
            nextStartTime := 5 }).2 ∧
    (3 : ℚ) = 3 :=
  c3_interruption_resets
    { initConvState with
        audioSources := [4, 7], nextSourceId := 9, nextStartTime := 5 }
    100 3 (LiveMsg.mk none none none true false)
    (LiveMsg.mk none none (some [0]) false false) [0] 3 9 7
    rfl rfl (by simp) rfl rfl (by norm_num)
    (by
      simp [onmessage, applyInputT, applyOutputT, applyAudio, applyInterrupt,
        applyTurnComplete, bufferDuration, initConvState, max_def])

/-! ## The AudioTranscriber (single-direction) session

ImageEditor.tsx lines 771-895: one latest-partial buffer, a committed
transcript string, and the same start/stop/cleanup shape guarded by the
`isRecording` flag. -/

/-- The AudioTranscriber component state: React state (isRecording,
transcription, interimTranscript, error), the latest-turn ref, and the
resource handles held in refs. -/
structure TransState where
  isRecording : Bool
  transcription : String
  interimTranscript : String
  currentTurnText : String
  error : Option String
  mediaStream : Bool
  scriptProcessor : Bool
  audioCtx : Bool
  session : Bool
deriving DecidableEq, Repr

/-- Transcriber state as initialised by its useState/useRef declarations. -/
def initTransState : TransState :=
  { isRecording := false
    transcription := ""
    interimTranscript := ""
    currentTurnText := ""
    error := none
    mediaStream := false
    scriptProcessor := false
    audioCtx := false
    session := false }

/-- ImageEditor.tsx lines 853-857: a partial transcript replaces both the
interim display and the latest-turn buffer. -/
def transApplyInputT (msg : LiveMsg) (st : TransState) : TransState :=
  match msg.inputTranscription with
  | some t => { st with interimTranscript := t, currentTurnText := t }
  | none => st

/-- ImageEditor.tsx lines 858-865: on `turnComplete`, trim the latest
turn, append it to the transcript (newline-separated) only when
non-empty, then reset the buffers. -/
def transApplyTurnComplete (msg : LiveMsg) (st : TransState) : TransState :=
  if msg.turnComplete then
    { st with
        transcription :=
          if trimStr st.currentTurnText ≠ "" then
            st.transcription ++
              (if st.transcription = "" then "" else "\n") ++
              trimStr st.currentTurnText
          else st.transcription,
        currentTurnText := "",
        interimTranscript := "" }
  else st

/-- The whole transcriber `onmessage` handler. -/
def transOnmessage (msg : LiveMsg) (st : TransState) : TransState :=
  transApplyTurnComplete msg (transApplyInputT msg st)

theorem applyInputT_none (msg : LiveMsg) (st : ConvState)
    (h : msg.inputTranscription = none) : applyInputT msg st = st := by
  unfold applyInputT
  rw [h]

theorem applyOutputT_none (msg : LiveMsg) (st : ConvState)
    (h : msg.outputTranscription = none) : applyOutputT msg st = st := by
  unfold applyOutputT
  rw [h]

theorem transApplyInputT_none (msg : LiveMsg) (st : TransState)
    (h : msg.inputTranscription = none) : transApplyInputT msg st = st := by
  unfold transApplyInputT
  rw [h]

theorem transApplyInputT_transcription (msg : LiveMsg) (st : TransState) :
    (transApplyInputT msg st).transcription = st.transcription := by
  unfold transApplyInputT
  cases msg.inputTranscription <;> rfl

theorem applyTurnComplete_true_spec (msg : LiveMsg) (st : ConvState)
    (htc : msg.turnComplete = true) :
    (applyTurnComplete msg st).conversation =
      (if trimStr st.currentInputText ≠ "" ∨ trimStr st.currentOutputText ≠ "" then
        st.conversation ++
          [⟨Role.user, trimStr st.currentInputText⟩,
           ⟨Role.model, trimStr st.currentOutputText⟩]
      else st.conversation) ∧
    (applyTurnComplete msg st).currentInputText = "" ∧
    (applyTurnComplete msg st).currentOutputText = "" := by
  unfold applyTurnComplete
  rw [htc]
  simp

/-- C4: the turn commit rule, for the two-way conversation and for the
single-direction transcriber.  A pure turn-complete event trims each
buffer; if both are empty nothing is appended, otherwise exactly one
entry per configured role is appended (a user/model pair here, a single
transcript line there); afterwards the buffers are reset. -/
theorem c4_turn_commit (st : ConvState) (now : ℚ) (m : LiveMsg)
    (ts : TransState) (mt : LiveMsg)
    (htc : m.turnComplete = true) (hin : m.inputTranscription = none)
    (hout : m.outputTranscription = none)
    (htct : mt.turnComplete = true) (hint2 : mt.inputTranscription = none) :
    (trimStr st.currentInputText = "" ∧ trimStr st.currentOutputText = "" →
      (onmessage now m st).1.conversation = st.conversation) ∧
    (trimStr st.currentInputText ≠ "" ∨ trimStr st.currentOutputText ≠ "" →
      (onmessage now m st).1.conversation =
        st.conversation ++
          [⟨Role.user, trimStr st.currentInputText⟩,
           ⟨Role.model, trimStr st.currentOutputText⟩]) ∧
    (onmessage now m st).1.currentInputText = "" ∧
    (onmessage now m st).1.currentOutputText = "" ∧
    (trimStr ts.currentTurnText = "" →
      (transOnmessage mt ts).transcription = ts.transcription) ∧
    (trimStr ts.currentTurnText ≠ "" →
      (transOnmessage mt ts).transcription =
        ts.transcription ++ (if ts.transcription = "" then "" else "\n") ++
          trimStr ts.currentTurnText) ∧
    (transOnmessage mt ts).currentTurnText = "" ∧
    (transOnmessage mt ts).interimTranscript = "" := by
  have hbase : onmessage now m st =
      (applyTurnComplete m (applyInterrupt m (applyAudio now m st).1).1,
        (applyAudio now m st).2 ++
          (applyInterrupt m (applyAudio now m st).1).2) := by
    unfold onmessage
    rw [applyInputT_none m st hin, applyOutputT_none m st hout]
  have hXc : (applyInterrupt m (applyAudio now m st).1).1.conversation =
      st.conversation := by
    rw [applyInterrupt_conversation, applyAudio_conversation]
  have hXi : (applyInterrupt m (applyAudio now m st).1).1.currentInputText =
      st.currentInputText := by
    rw [applyInterrupt_currentInputText, applyAudio_currentInputText]
  have hXo : (applyInterrupt m (applyAudio now m st).1).1.currentOutputText =
      st.currentOutputText := by
    rw [applyInterrupt_currentOutputText, applyAudio_currentOutputText]
  obtain ⟨hc, hri, hro⟩ := applyTurnComplete_true_spec m
    (applyInterrupt m (applyAudio now m st).1).1 htc
  rw [hXi, hXo, hXc] at hc
  have htbase : transOnmessage mt ts = transApplyTurnComplete mt ts := by
    unfold transOnmessage
    rw [transApplyInputT_none mt ts hint2]
  refine ⟨?_, ?_, ?_, ?_, ?_, ?_, ?_, ?_⟩
  · intro hee
    rw [hbase]
    rw [hc]
    simp [hee.1, hee.2]
  · intro hne
    rw [hbase]
    rw [hc]
    simp [hne]
  · rw [hbase]
    exact hri
  · rw [hbase]
    exact hro
  · intro he
    rw [htbase]
    unfold transApplyTurnComplete
    rw [htct]
    simp [he]
  · intro hne
    rw [htbase]
    unfold transApplyTurnComplete
    rw [htct]
    simp [hne]
  · rw [htbase]
    unfold transApplyTurnComplete
    simp [htct]
  · rw [htbase]
    unfold transApplyTurnComplete
    simp [htct]

/-- C4 witness: committing a turn whose user buffer is " hi " and model
buffer empty appends the pair (with the user text trimmed), and the
transcriber appends the line "yo" to an existing transcript "a". -/
theorem c4_turn_commit_witness :
    (onmessage 0 (LiveMsg.mk none none none false true)
        { initConvState with currentInputText := " hi " }).1.conversation =
      [⟨Role.user, "hi"⟩, ⟨Role.model, ""⟩] ∧
    (transOnmessage (LiveMsg.mk none none none false true)
        { initTransState with
            currentTurnText := "yo", transcription := "a" }).transcription =
      "a" ++ "\n" ++ "yo" := by
  have h := c4_turn_commit
    { initConvState with currentInputText := " hi " } 0
    (LiveMsg.mk none none none false true)
    { initTransState with currentTurnText := "yo", transcription := "a" }
    (LiveMsg.mk none none none false true) rfl rfl rfl rfl rfl
  constructor
  · have h2 := h.2.1 (by left; decide)
    rw [h2]
    simp [initConvState]
    decide
  · have h2 := h.2.2.2.2.2.1 (by decide)
    rw [h2]
    decide

/-- C5 (counterexample): in the two-way conversation, a turn whose input
buffer is empty but whose output buffer is "hi" appends BOTH entries,
including a user entry with empty text — so not every appended entry has
non-empty text.  Concrete run from the initial state: one partial-output
message followed by a turn-complete message. -/
theorem c5_empty_entry_appended :
    (onmessage 0 (LiveMsg.mk none none none false true)
        (onmessage 0 (LiveMsg.mk none (some "hi") none false false)
          initConvState).1).1.conversation =
      [⟨Role.user, ""⟩, ⟨Role.model, "hi"⟩] ∧
    (⟨Role.user, ""⟩ : ConversationEntry) ∈
      (onmessage 0 (LiveMsg.mk none none none false true)
        (onmessage 0 (LiveMsg.mk none (some "hi") none false false)
          initConvState).1).1.conversation := by
  refine ⟨by decide, by decide⟩

/-- The shape of every reachable conversation log: a concatenation of
user/model pairs, each pair having at least one non-empty text (but an
individual entry may be empty). -/
def goodLog (l : List ConversationEntry) : Prop :=
  ∃ ps : List (ConversationEntry × ConversationEntry),
    l = (ps.map (fun p => [p.1, p.2])).flatten ∧
    ∀ p ∈ ps, p.1.role = Role.user ∧ p.2.role = Role.model ∧
      (p.1.text ≠ "" ∨ p.2.text ≠ "")

theorem goodLog_nil : goodLog [] :=
  ⟨[], by simp, by simp⟩

theorem goodLog_append (l : List ConversationEntry)
    (u v : ConversationEntry) (h : goodLog l) (hu : u.role = Role.user)
    (hv : v.role = Role.model) (hne : u.text ≠ "" ∨ v.text ≠ "") :
    goodLog (l ++ [u, v]) := by
  obtain ⟨ps, rfl, hps⟩ := h
  refine ⟨ps ++ [(u, v)], by simp, ?_⟩
  intro p hp
  rcases List.mem_append.mp hp with hp | hp
  · exact hps p hp
  · rw [List.mem_singleton] at hp
    subst hp
    exact ⟨hu, hv, hne⟩

theorem goodLog_onmessage (now : ℚ) (msg : LiveMsg) (st : ConvState)
    (h : goodLog st.conversation) :
    goodLog ((onmessage now msg st).1.conversation) := by
  have hpre : (applyInterrupt msg
      (applyAudio now msg (applyOutputT msg (applyInputT msg st))).1).1.conversation =
      st.conversation := by
    rw [applyInterrupt_conversation, applyAudio_conversation,
      applyOutputT_conversation, applyInputT_conversation]
  unfold onmessage
  unfold applyTurnComplete
  by_cases htc : msg.turnComplete = true
  · rw [if_pos htc]
    dsimp only
    rw [hpre]
    by_cases hne :
        trimStr (applyInterrupt msg
          (applyAudio now msg (applyOutputT msg (applyInputT msg st))).1).1.currentInputText ≠ "" ∨
        trimStr (applyInterrupt msg
          (applyAudio now msg (applyOutputT msg (applyInputT msg st))).1).1.currentOutputText ≠ ""
    · rw [if_pos hne]
      exact goodLog_append _ _ _ h rfl rfl hne
    · rw [if_neg hne]
      exact h
  · rw [if_neg htc]
    rw [hpre]
    exact h

/-- C5 (amended): only-non-empty persistence holds in the weakened form
the code implements.  (a) Every reachable conversation log is a list of
user/model pairs in which at least one member of each pair has non-empty
text — an individual entry may still be empty.  (b) In the transcriber,
the committed transcript only ever changes by appending a non-empty
completed turn. -/
theorem c5_nonempty_persistence :
    (∀ msgs : List (ℚ × LiveMsg),
      goodLog ((msgs.foldl (fun s p => (onmessage p.1 p.2 s).1)
        initConvState).conversation)) ∧
    (∀ (mt : LiveMsg) (ts : TransState),
      (transOnmessage mt ts).transcription = ts.transcription ∨
      ∃ t, t ≠ "" ∧ (transOnmessage mt ts).transcription =
        ts.transcription ++ (if ts.transcription = "" then "" else "\n") ++ t) := by
  constructor
  · have hgen : ∀ (msgs : List (ℚ × LiveMsg)) (st : ConvState),
        goodLog st.conversation →
        goodLog ((msgs.foldl (fun s p => (onmessage p.1 p.2 s).1) st).conversation) := by
      intro msgs
      induction msgs with
      | nil => intro st h; exact h
      | cons hd tl ih =>
          intro st h
          exact ih _ (goodLog_onmessage hd.1 hd.2 st h)
    intro msgs
    exact hgen msgs initConvState goodLog_nil
  · intro mt ts
    have htr : (transApplyInputT mt ts).transcription = ts.transcription :=
      transApplyInputT_transcription mt ts
    unfold transOnmessage transApplyTurnComplete
    by_cases htc : mt.turnComplete = true
    · by_cases hne : trimStr (transApplyInputT mt ts).currentTurnText ≠ ""
      · right
        refine ⟨trimStr (transApplyInputT mt ts).currentTurnText, hne, ?_⟩
        rw [if_pos htc]
        dsimp only
        rw [if_pos hne, htr]
      · left
        rw [if_pos htc]
        dsimp only
        rw [if_neg hne, htr]
    · left
      rw [if_neg htc]
      exact htr

/-! ## Session controller lifecycle

Conversation.tsx `cleanup` (lines 117-129), `handleStart` (135-268),
`handleStop` (270-274), `onclose` (250-253); AudioTranscriber `cleanup`
(784-801), `handleStartRecording` (809-890), `handleStopRecording`
(892-896).  `handleStart` is modelled up to its synchronous completion:
`apiKey` is the credential read from the environment, `micErr` the result
of microphone acquisition (`none` = granted). -/

/-- The function `cleanup`: stop all capture tracks, disconnect the tap, close both
audio contexts, close the session, null every ref.  Touches neither the
status nor the React state. -/
def cleanup (st : ConvState) : ConvState :=
  { st with
      mediaStream := false
      scriptProcessor := false
      inputCtx := false
      outputCtx := false
      session := false }

/-- The `onclose` callback (Conversation.tsx lines 250-253): logs and
sets the status to idle.  It does NOT call `cleanup`. -/
def onclose (st : ConvState) : ConvState :=
  { st with status := Status.idle }

/-- The synchronous prelude of `handleStart` (lines 138-143): status to
connecting, clear the error, the log, both buffers and the watermark. -/
def handleStartReset (st : ConvState) : ConvState :=
  { st with
      status := Status.connecting
      error := none
      conversation := []
      currentInputText := ""
      currentOutputText := ""
      nextStartTime := 0 }

/-- The handler `handleStart`: no-op unless idle; otherwise reset session-local
state, then fail fast (error surfaced, status back to idle, cleanup) if
the credential is absent or the microphone fails, else acquire the
devices and open the session. -/
def handleStart (st : ConvState) (apiKey : Option String)
    (micErr : Option String) : ConvState :=
  if st.status ≠ Status.idle then st
  else
    match apiKey with
    | none =>
        cleanup
          { handleStartReset st with
              status := Status.idle
              error := some "Failed to start conversation: API_KEY environment variable not set." }
    | some _ =>
        match micErr with
        | some msg =>
            cleanup
              { handleStartReset st with
                  status := Status.idle
                  error := some ("Failed to start conversation: " ++ msg) }
        | none =>
            { handleStartReset st with
                mediaStream := true
                inputCtx := true
                outputCtx := true
                session := true }

/-- The handler `handleStop` (lines 270-274): no-op when idle, else cleanup and go
idle. -/
def handleStop (st : ConvState) : ConvState :=
  if st.status = Status.idle then st
  else { cleanup st with status := Status.idle }

/-- AudioTranscriber `cleanup` (ImageEditor.tsx lines 784-801). -/
def transCleanup (st : TransState) : TransState :=
  { st with
      mediaStream := false
      scriptProcessor := false
      audioCtx := false
      session := false }

/-- AudioTranscriber `handleStartRecording` (lines 809-890): guarded by
`isRecording`, resets the transcript state, fails fast on a missing
credential or microphone failure, else acquires and connects. -/
def handleStartRecording (st : TransState) (apiKey : Option String)
    (micErr : Option String) : TransState :=
  if st.isRecording then st
  else
    match apiKey with
    | none =>
        transCleanup
          { st with
              isRecording := false
              transcription := ""
              interimTranscript := ""
              currentTurnText := ""
              error := some "Failed to start recording: API_KEY environment variable not set." }
    | some _ =>
        match micErr with
        | some msg =>
            transCleanup
              { st with
                  isRecording := false
                  transcription := ""
                  interimTranscript := ""
                  currentTurnText := ""
                  error := some ("Failed to start recording: " ++ msg) }
        | none =>
            { st with
                isRecording := true
                transcription := ""
                interimTranscript := ""
                currentTurnText := ""
                error := none
                mediaStream := true
                audioCtx := true
                session := true }

/-- AudioTranscriber `handleStopRecording` (lines 892-896). -/
def handleStopRecording (st : TransState) : TransState :=
  if st.isRecording then transCleanup { st with isRecording := false }
  else st

/-- C6 (counterexample): from a fully-live listening state, the
remote-close callback leaves the microphone capture, the processing tap,
both audio devices and the session handle untouched — only the status
changes — so the claimed full teardown does not happen. -/
theorem c6_onclose_no_teardown :
    (onclose { initConvState with
        status := Status.listening
        mediaStream := true
        scriptProcessor := true
        inputCtx := true
        outputCtx := true
        session := true }).status = Status.idle ∧
    (onclose { initConvState with
        status := Status.listening
        mediaStream := true
        scriptProcessor := true
        inputCtx := true
        outputCtx := true
        session := true }).mediaStream = true ∧
    (onclose { initConvState with
        status := Status.listening
        mediaStream := true
        scriptProcessor := true
        inputCtx := true
        outputCtx := true
        session := true }).session = true := by
  refine ⟨rfl, rfl, rfl⟩

/-- C6 (amended): on a remote-initiated close the controller transitions
to idle but performs no teardown: every resource handle (capture tracks,
tap, audio devices, session) and all React state other than the status is
left exactly as it was; `cleanup` runs only via stop(), a start failure,
the error path or unmount. -/
theorem c6_onclose_only_sets_idle (st : ConvState) :
    (onclose st).status = Status.idle ∧
    (onclose st).mediaStream = st.mediaStream ∧
    (onclose st).scriptProcessor = st.scriptProcessor ∧
    (onclose st).inputCtx = st.inputCtx ∧
    (onclose st).outputCtx = st.outputCtx ∧
    (onclose st).session = st.session ∧
    (onclose st).conversation = st.conversation ∧
    (onclose st).error = st.error :=
  ⟨rfl, rfl, rfl, rfl, rfl, rfl, rfl, rfl⟩

theorem handleStart_not_idle (st : ConvState) (k me : Option String)
    (h : st.status ≠ Status.idle) : handleStart st k me = st := by
  unfold handleStart
  rw [if_pos h]

theorem handleStart_success_status (st : ConvState) (k : String)
    (h : st.status = Status.idle) :
    (handleStart st (some k) none).status = Status.connecting := by
  unfold handleStart
  rw [if_neg (by simp [h])]
  rfl

/-- C7: session single-flight.  `handleStart` is a no-op in every
non-idle state and `handleStartRecording` is a no-op while recording;
consequently a second start issued right after a successful one (which
left the status at connecting) changes nothing, so at most one session is
opened. -/
theorem c7_single_flight (st st2 : ConvState) (ts : TransState)
    (k me k2 me2 k4 me4 : Option String) (k3 : String)
    (h : st.status ≠ Status.idle) (h2 : ts.isRecording = true)
    (h3 : st2.status = Status.idle) :
    handleStart st k me = st ∧
    handleStartRecording ts k2 me2 = ts ∧
    handleStart (handleStart st2 (some k3) none) k4 me4 =
      handleStart st2 (some k3) none := by
  refine ⟨handleStart_not_idle st k me h, ?_, ?_⟩
  · unfold handleStartRecording
    rw [h2]
    rfl
  · refine handleStart_not_idle _ k4 me4 ?_
    rw [handleStart_success_status st2 k3 h3]
    exact fun hcon => Status.noConfusion hcon

/-- C7 witness: from listening, start is a no-op; while recording,
start-recording is a no-op; a double start from idle equals a single
start. -/
theorem c7_single_flight_witness :
    handleStart { initConvState with status := Status.listening }
        (some "key") none =
      { initConvState with status := Status.listening } ∧
    handleStartRecording { initTransState with isRecording := true }
        (some "key") none =
      { initTransState with isRecording := true } ∧
    handleStart (handleStart initConvState (some "key") none)
        (some "key") none =
      handleStart initConvState (some "key") none :=
  c7_single_flight { initConvState with status := Status.listening }
    initConvState { initTransState with isRecording := true }
    (some "key") none (some "key") none (some "key") none "key"
    (by decide) rfl rfl

/-- C10: starting from idle resets all session-local state before the
session opens: the log (or committed transcript), the partial buffers,
the surfaced error and the playback watermark are all cleared, so nothing
from a previous session is visible in the new one. -/
theorem c10_start_resets_state (st : ConvState) (ts : TransState)
    (k k2 : String) (h : st.status = Status.idle)
    (h2 : ts.isRecording = false) :
    (handleStart st (some k) none).conversation = [] ∧
    (handleStart st (some k) none).currentInputText = "" ∧
    (handleStart st (some k) none).currentOutputText = "" ∧
    (handleStart st (some k) none).error = none ∧
    (handleStart st (some k) none).nextStartTime = 0 ∧
    (handleStart st (some k) none).status = Status.connecting ∧
    (handleStart st (some k) none).session = true ∧
    (handleStartRecording ts (some k2) none).transcription = "" ∧
    (handleStartRecording ts (some k2) none).interimTranscript = "" ∧
    (handleStartRecording ts (some k2) none).currentTurnText = "" ∧
    (handleStartRecording ts (some k2) none).error = none ∧
    (handleStartRecording ts (some k2) none).isRecording = true ∧
    (handleStartRecording ts (some k2) none).session = true := by
  have hc : handleStart st (some k) none =
      { handleStartReset st with
          mediaStream := true
          inputCtx := true
          outputCtx := true
          session := true } := by
    unfold handleStart
    rw [if_neg (by simp [h])]
  have ht : handleStartRecording ts (some k2) none =
      { ts with
          isRecording := true
          transcription := ""
          interimTranscript := ""
          currentTurnText := ""
          error := none
          mediaStream := true
          audioCtx := true
          session := true } := by
    unfold handleStartRecording
    rw [h2]
    rfl
  rw [hc, ht]
  unfold handleStartReset
  refine ⟨rfl, rfl, rfl, rfl, rfl, rfl, rfl, rfl, rfl, rfl, rfl, rfl, rfl⟩

/-- A dirty but idle conversation state left over from a previous
session, used to exercise the start-time reset. -/
def staleConvState : ConvState :=
  { initConvState with
      conversation := [⟨Role.user, "old"⟩, ⟨Role.model, "stale"⟩]
      currentInputText := "x"
      currentOutputText := "y"
      error := some "boom"
      nextStartTime := 9 }

/-- A dirty but not-recording transcriber state left over from a
previous session. -/
def staleTransState : TransState :=
  { initTransState with
      transcription := "old lines"
      interimTranscript := "z"
      currentTurnText := "w"
      error := some "boom" }

/-- C10 witness: starting from a dirty idle state clears everything. -/
theorem c10_start_resets_state_witness :
    (handleStart staleConvState (some "key") none).conversation = [] ∧
    (handleStart staleConvState (some "key") none).currentInputText = "" ∧
    (handleStart staleConvState (some "key") none).currentOutputText = "" ∧
    (handleStart staleConvState (some "key") none).error = none ∧
    (handleStart staleConvState (some "key") none).nextStartTime = 0 ∧
    (handleStart staleConvState (some "key") none).status = Status.connecting ∧
    (handleStart staleConvState (some "key") none).session = true ∧
    (handleStartRecording staleTransState (some "key") none).transcription = "" ∧
    (handleStartRecording staleTransState (some "key") none).interimTranscript = "" ∧
    (handleStartRecording staleTransState (some "key") none).currentTurnText = "" ∧
    (handleStartRecording staleTransState (some "key") none).error = none ∧
    (handleStartRecording staleTransState (some "key") none).isRecording = true ∧
    (handleStartRecording staleTransState (some "key") none).session = true :=
  c10_start_resets_state staleConvState staleTransState "key" "key" rfl rfl

/-! ## One-shot generation calls (src/services/geminiService.ts)

Every exported function first checks `process.env.API_KEY`; if absent it
throws before constructing the client or issuing any request.  The
outcome is modelled as either that configuration error or the network
call that would be issued (identified by the model name), payload
arguments carried for arity but irrelevant to the guard. -/

/-- Outcome of the synchronous prefix of a one-shot service call. -/
inductive CallOutcome where
  | configError (msg : String)
  | networkCall (model : String)
deriving DecidableEq, Repr

/-- geminiService.ts lines 5-34. -/
def extractPromptFromImage (image : String) (apiKey : Option String) :
    CallOutcome :=
  match apiKey with
  | none => CallOutcome.configError "API_KEY environment variable not set."
  | some _ => CallOutcome.networkCall "gemini-3-flash-preview"

/-- geminiService.ts lines 36-59. -/
def generativeResize (image : String) (width height : ℕ)
    (apiKey : Option String) : CallOutcome :=
  match apiKey with
  | none => CallOutcome.configError "API_KEY not set."
  | some _ => CallOutcome.networkCall "gemini-2.5-flash-image"

/-- geminiService.ts lines 61-77. -/
def editImage (image prompt : String) (apiKey : Option String) :
    CallOutcome :=
  match apiKey with
  | none => CallOutcome.configError "API_KEY not set."
  | some _ => CallOutcome.networkCall "gemini-2.5-flash-image"

/-- geminiService.ts lines 79-98. -/
def faceSwap (sourceFace targetImage : String) (apiKey : Option String) :
    CallOutcome :=
  match apiKey with
  | none => CallOutcome.configError "API_KEY not set."
  | some _ => CallOutcome.networkCall "gemini-3-pro-image-preview"

/-- geminiService.ts lines 100-117: the model depends on the requested
aspect string. -/
def generateImageFromText (prompt aspect : String)
    (apiKey : Option String) : CallOutcome :=
  match apiKey with
  | none => CallOutcome.configError "API_KEY not set."
  | some _ =>
      if aspect = "4096x832" then
        CallOutcome.networkCall "gemini-3-pro-image-preview"
      else CallOutcome.networkCall "gemini-2.5-flash-image"

/-- geminiService.ts lines 120-138. -/
def generateSpeech (text voice language : String) (apiKey : Option String) :
    CallOutcome :=
  match apiKey with
  | none => CallOutcome.configError "API_KEY not set."
  | some _ => CallOutcome.networkCall "gemini-2.5-flash-preview-tts"

/-- geminiService.ts lines 140-156. -/
def upscaleImage (image : String) (apiKey : Option String) : CallOutcome :=
  match apiKey with
  | none => CallOutcome.configError "API_KEY not set."
  | some _ => CallOutcome.networkCall "gemini-2.5-flash-image"

/-- geminiService.ts lines 158-172. -/
def generateImageFromElements (subject scene style : List String)
    (prompt : String) (apiKey : Option String) : CallOutcome :=
  match apiKey with
  | none => CallOutcome.configError "API_KEY not set."
  | some _ => CallOutcome.networkCall "gemini-2.5-flash-image"

/-- geminiService.ts lines 174-191. -/
def restyleImage (original style prompt : String) (apiKey : Option String) :
    CallOutcome :=
  match apiKey with
  | none => CallOutcome.configError "API_KEY not set."
  | some _ => CallOutcome.networkCall "gemini-2.5-flash-image"

/-- geminiService.ts lines 193-210. -/
def virtualTryOn (modelImage garment : String) (apiKey : Option String) :
    CallOutcome :=
  match apiKey with
  | none => CallOutcome.configError "API_KEY not set."
  | some _ => CallOutcome.networkCall "gemini-2.5-flash-image"

/-- geminiService.ts lines 212-226. -/
def virtualTryOnMultiple (modelImage : String) (garments : List String)
    (apiKey : Option String) : CallOutcome :=
  match apiKey with
  | none => CallOutcome.configError "API_KEY not set."
  | some _ => CallOutcome.networkCall "gemini-2.5-flash-image"

/-- C8: missing-credential fail-fast.  With no credential, every one-shot
service call returns its configuration error without issuing a network
call, and both streaming-session starts surface the error, open no
session, and return to their idle/not-recording state. -/
theorem c8_missing_credential_fail_fast
    (image sourceFace targetImage original style2 prompt text voice
      language modelImage garment aspect : String)
    (width height : ℕ) (subject scene style : List String)
    (garments : List String)
    (st : ConvState) (me : Option String) (ts : TransState)
    (me2 : Option String)
    (hst : st.status = Status.idle) (hts : ts.isRecording = false) :
    extractPromptFromImage image none =
      CallOutcome.configError "API_KEY environment variable not set." ∧
    generativeResize image width height none =
      CallOutcome.configError "API_KEY not set." ∧
    editImage image prompt none = CallOutcome.configError "API_KEY not set." ∧
    faceSwap sourceFace targetImage none =
      CallOutcome.configError "API_KEY not set." ∧
    generateImageFromText prompt aspect none =
      CallOutcome.configError "API_KEY not set." ∧
    generateSpeech text voice language none =
      CallOutcome.configError "API_KEY not set." ∧
    upscaleImage image none = CallOutcome.configError "API_KEY not set." ∧
    generateImageFromElements subject scene style prompt none =
      CallOutcome.configError "API_KEY not set." ∧
    restyleImage original style2 prompt none =
      CallOutcome.configError "API_KEY not set." ∧
    virtualTryOn modelImage garment none =
      CallOutcome.configError "API_KEY not set." ∧
    virtualTryOnMultiple modelImage garments none =
      CallOutcome.configError "API_KEY not set." ∧
    (handleStart st none me).session = false ∧
    (handleStart st none me).status = Status.idle ∧
    (handleStart st none me).error =
      some "Failed to start conversation: API_KEY environment variable not set." ∧
    (handleStartRecording ts none me2).session = false ∧
    (handleStartRecording ts none me2).isRecording = false ∧
    (handleStartRecording ts none me2).error =
      some "Failed to start recording: API_KEY environment variable not set." := by
  have hc : handleStart st none me =
      cleanup
        { handleStartReset st with
            status := Status.idle
            error := some "Failed to start conversation: API_KEY environment variable not set." } := by
    unfold handleStart
    rw [if_neg (by simp [hst])]
  have ht : handleStartRecording ts none me2 =
      transCleanup
        { ts with
            isRecording := false
            transcription := ""
            interimTranscript := ""
            currentTurnText := ""
            error := some "Failed to start recording: API_KEY environment variable not set." } := by
    unfold handleStartRecording
    rw [hts]
    rfl
  rw [hc, ht]
  exact ⟨rfl, rfl, rfl, rfl, rfl, rfl, rfl, rfl, rfl, rfl, rfl, rfl, rfl,
    rfl, rfl, rfl, rfl⟩

/-- C8 witness: the fail-fast behaviour at concrete inputs. -/
theorem c8_missing_credential_fail_fast_witness :
    extractPromptFromImage "img" none =
      CallOutcome.configError "API_KEY environment variable not set." ∧
    generativeResize "img" 100 50 none =
      CallOutcome.configError "API_KEY not set." ∧
    editImage "img" "p" none = CallOutcome.configError "API_KEY not set." ∧
    faceSwap "src" "dst" none = CallOutcome.configError "API_KEY not set." ∧
    generateImageFromText "p" "1:1" none =
      CallOutcome.configError "API_KEY not set." ∧
    generateSpeech "hello" "Kore" "English" none =
      CallOutcome.configError "API_KEY not set." ∧
    upscaleImage "img" none = CallOutcome.configError "API_KEY not set." ∧
    generateImageFromElements ["s"] ["b"] ["c"] "p" none =
      CallOutcome.configError "API_KEY not set." ∧
    restyleImage "img" "sty" "p" none =
      CallOutcome.configError "API_KEY not set." ∧
    virtualTryOn "img" "g" none = CallOutcome.configError "API_KEY not set." ∧
    virtualTryOnMultiple "img" ["g1", "g2"] none =
      CallOutcome.configError "API_KEY not set." ∧
    (handleStart initConvState none none).session = false ∧
    (handleStart initConvState none none).status = Status.idle ∧
    (handleStart initConvState none none).error =
      some "Failed to start conversation: API_KEY environment variable not set." ∧
    (handleStartRecording initTransState none none).session = false ∧
    (handleStartRecording initTransState none none).isRecording = false ∧
    (handleStartRecording initTransState none none).error =
      some "Failed to start recording: API_KEY environment variable not set." :=
  c8_missing_credential_fail_fast "img" "src" "dst" "img" "sty" "p"
    "hello" "Kore" "English" "img" "g" "1:1" 100 50 ["s"] ["b"] ["c"]
    ["g1", "g2"] initConvState none initTransState none rfl rfl

/-! ## The WAV container builder (src/components/TTS.tsx, createWavUrl)

`createWavUrl` builds a 44-byte riff/wave header field by field with
`DataView.setUint16`/`setUint32` (little-endian) and appends the raw PCM
payload.  JavaScript `setUint16`/`setUint32` first coerce the value with
ToUint16/ToUint32, i.e. modulo 2^16 / 2^32. -/

/-- JavaScript `DataView.setUint16(offset, v, true)`: the two little-endian bytes of
`v mod 2^16`. -/
def u16le (v : ℕ) : List ℕ :=
  [v % 65536 % 256, v % 65536 / 256]

/-- JavaScript `DataView.setUint32(offset, v, true)`: the four little-endian bytes
of `v mod 2^32`. -/
def u32le (v : ℕ) : List ℕ :=
  [v % 4294967296 % 256, v % 4294967296 / 256 % 256,
   v % 4294967296 / 65536 % 256, v % 4294967296 / 16777216]

/-- TTS.tsx: `const sampleRate = 24000`. -/
def sampleRate : ℕ := 24000

/-- TTS.tsx: `const numChannels = 1`. -/
def numChannels : ℕ := 1

/-- TTS.tsx: `const bitsPerSample = 16`. -/
def bitsPerSample : ℕ := 16

/-- TTS.tsx: `const blockAlign = (numChannels * bitsPerSample) / 8`. -/
def blockAlign : ℕ := numChannels * bitsPerSample / 8

/-- TTS.tsx: `const byteRate = sampleRate * blockAlign`. -/
def byteRate : ℕ := sampleRate * blockAlign

/-- The 44 header bytes written by `createWavUrl` for a payload of
`dataSize` bytes: RIFF marker, chunk size 36+N, WAVE and fmt markers,
fmt-chunk size 16, format code 1 (PCM), channel count, sample rate, byte
rate, block align, bits per sample, data marker, data size N.  The
string markers are written charCode by charCode. -/
def wavHeader (dataSize : ℕ) : List ℕ :=
  [82, 73, 70, 70] ++ u32le (36 + dataSize) ++ [87, 65, 86, 69] ++
    [102, 109, 116, 32] ++ u32le 16 ++ u16le 1 ++ u16le numChannels ++
    u32le sampleRate ++ u32le byteRate ++ u16le blockAlign ++
    u16le bitsPerSample ++ [100, 97, 116, 97] ++ u32le dataSize

/-- The full byte blob produced by `createWavUrl`: header then raw PCM
payload. -/
def createWav (pcm : List ℕ) : List ℕ :=
  wavHeader pcm.length ++ pcm

/-- Reading one byte of the blob (0 when out of range). -/
def readByte (bs : List ℕ) (i : ℕ) : ℕ :=
  bs.getD i 0

/-- Little-endian 16-bit read at a byte offset. -/
def readU16le (bs : List ℕ) (i : ℕ) : ℕ :=
  readByte bs i + 256 * readByte bs (i + 1)

/-- Little-endian 32-bit read at a byte offset. -/
def readU32le (bs : List ℕ) (i : ℕ) : ℕ :=
  readByte bs i + 256 * readByte bs (i + 1) +
    65536 * readByte bs (i + 2) + 16777216 * readByte bs (i + 3)

/-- C9 (counterexample): at payload length N = 2^32 the declared RIFF
chunk size wraps modulo 2^32 (JavaScript ToUint32) and reads back as 36,
not 36 + N, so the header law does not hold for every N ≥ 0. -/
theorem c9_header_wraps_at_2pow32 :
    readU32le (wavHeader 4294967296) 4 = 36 ∧
      (36 : ℕ) ≠ 36 + 4294967296 := by
  constructor
  · rfl
  · omega

/-- C9 (amended): container header correctness for every payload of
byte length N with 36 + N < 2^32 (the declared sizes are 32-bit fields
written modulo 2^32): the blob is 44 header bytes followed by the
payload, the declared RIFF chunk size reads back as 36 + N, the declared
data size as N, the format code as 1 (PCM), block align as
channels × bitsPerSample/8 = 2, byte rate as sampleRate × blockAlign =
48000, and the sample rate as 24000. -/
theorem c9_container_header_correct (pcm : List ℕ)
    (h : 36 + pcm.length < 4294967296) :
    readU32le (createWav pcm) 4 = 36 + pcm.length ∧
    readU32le (createWav pcm) 40 = pcm.length ∧
    readU16le (createWav pcm) 20 = 1 ∧
    readU16le (createWav pcm) 22 = numChannels ∧
    readU32le (createWav pcm) 24 = 24000 ∧
    readU32le (createWav pcm) 28 = 48000 ∧
    readU16le (createWav pcm) 32 = 2 ∧
    readU16le (createWav pcm) 34 = 16 ∧
    blockAlign = numChannels * bitsPerSample / 8 ∧
    blockAlign = 2 ∧
    byteRate = sampleRate * blockAlign ∧
    byteRate = 48000 ∧
    (createWav pcm).length = 44 + pcm.length ∧
    (createWav pcm).drop 44 = pcm := by
  have hmod : (36 + pcm.length) % 4294967296 = 36 + pcm.length :=
    Nat.mod_eq_of_lt h
  have hmodN : pcm.length % 4294967296 = pcm.length :=
    Nat.mod_eq_of_lt (by omega)
  refine ⟨?_, ?_, ?_, ?_, ?_, ?_, ?_, ?_, rfl, rfl, rfl, rfl, ?_, ?_⟩
  · simp only [createWav, wavHeader, u32le, u16le, numChannels, sampleRate,
      byteRate, blockAlign, bitsPerSample, readU32le, readByte,
      List.cons_append, List.nil_append, List.getD_cons_succ,
      List.getD_cons_zero, hmod]
    omega
  · simp only [createWav, wavHeader, u32le, u16le, numChannels, sampleRate,
      byteRate, blockAlign, bitsPerSample, readU32le, readByte,
      List.cons_append, List.nil_append, List.getD_cons_succ,
      List.getD_cons_zero, hmodN]
    omega
  · norm_num [createWav, wavHeader, u32le, u16le, numChannels, sampleRate,
      byteRate, blockAlign, bitsPerSample, readU16le, readByte,
      List.getD_cons_succ, List.getD_cons_zero]
  · norm_num [createWav, wavHeader, u32le, u16le, numChannels, sampleRate,
      byteRate, blockAlign, bitsPerSample, readU16le, readByte,
      List.getD_cons_succ, List.getD_cons_zero]
  · norm_num [createWav, wavHeader, u32le, u16le, numChannels, sampleRate,
      byteRate, blockAlign, bitsPerSample, readU32le, readByte,
      List.getD_cons_succ, List.getD_cons_zero]
  · norm_num [createWav, wavHeader, u32le, u16le, numChannels, sampleRate,
      byteRate, blockAlign, bitsPerSample, readU32le, readByte,
      List.getD_cons_succ, List.getD_cons_zero]
  · norm_num [createWav, wavHeader, u32le, u16le, numChannels, sampleRate,
      byteRate, blockAlign, bitsPerSample, readU16le, readByte,
      List.getD_cons_succ, List.getD_cons_zero]
  · norm_num [createWav, wavHeader, u32le, u16le, numChannels, sampleRate,
      byteRate, blockAlign, bitsPerSample, readU16le, readByte,
      List.getD_cons_succ, List.getD_cons_zero]
  · simp [createWav, wavHeader, u32le, u16le]
    omega
  · simp [createWav, wavHeader, u32le, u16le]

/-- C9 witness: the amended header law at a concrete three-byte
payload. -/
theorem c9_container_header_correct_witness :
    readU32le (createWav [1, 2, 3]) 4 = 39 ∧
    readU32le (createWav [1, 2, 3]) 40 = 3 ∧
    readU16le (createWav [1, 2, 3]) 20 = 1 ∧
    readU32le (createWav [1, 2, 3]) 28 = 48000 ∧
    (createWav [1, 2, 3]).length = 47 ∧
    (createWav [1, 2, 3]).drop 44 = [1, 2, 3] := by
  have h := c9_container_header_correct [1, 2, 3] (by norm_num)
  refine ⟨?_, ?_, h.2.2.1, h.2.2.2.2.2.1, ?_, h.2.2.2.2.2.2.2.2.2.2.2.2.2⟩
  · have h1 := h.1
    simpa using h1
  · have h2 := h.2.1
    simpa using h2
  · have hl := h.2.2.2.2.2.2.2.2.2.2.2.2.1
    simpa using hl

end Spec2Proof
